import Mathlib

/-!
Verification development for the TickSnap payment-registration workflow.

Shallow embedding of the core of the repository (`sheet.py` and
`main_logic.py`): the column-letter codec, the credit lookup, the credit
loader, the first-empty-log-row scan, the log append, and the
`generate_and_send_receipt` payment workflow.

Modelling conventions:
* Spreadsheet cell values are `String`s; the sheet is a `Grid`, a list of
  rows (row 1 of the sheet is index 0 of the list), each row a list of
  cells (column A is index 0).  A cell absent from a fetched row is the
  empty string, matching what the spreadsheet API returns.
* Python `int(...)` / `float(...)` parsing is modelled on the decimal
  fragment actually exercised by the ledger: optional surrounding
  whitespace, optional sign, ASCII digits, and (for float) an optional
  fractional part.  Amounts are exact scaled decimals (`PyDecimal`):
  an integer numerator over a power-of-ten scale, so every monetary
  value the ledger produces is represented exactly and every operation
  evaluates inside the kernel.
* Python `str.strip()` is modelled by `pyStrip`, and `str.lower()` /
  `str.upper()` by the ASCII `Char.toLower` / `Char.toUpper` maps.
* Exceptions raised by the code are modelled with `Except String`.
-/

/-- Rows of fetched cell values; the shape of every range read from the sheet. -/
abbrev Grid := List (List String)

instance {ε α : Type} [DecidableEq ε] [DecidableEq α] : DecidableEq (Except ε α) :=
  fun a b =>
    match a, b with
    | .error e, .error f =>
        if h : e = f then isTrue (by rw [h]) else isFalse (by simp [h])
    | .error _, .ok _ => isFalse (by simp)
    | .ok _, .error _ => isFalse (by simp)
    | .ok x, .ok y =>
        if h : x = y then isTrue (by rw [h]) else isFalse (by simp [h])

/-! ## Column constants (sheet.py, module level) -/

def COL_MASTER_NOMBRE : String := "M"
def COL_MASTER_APELLIDO : String := "N"
def COL_MASTER_ARTICULO : String := "P"
def COL_MASTER_CODIGO : String := "Q"
def COL_MASTER_ID_ARTICULO : String := "R"
def COL_MASTER_COMERCIO : String := "S"
def COL_MASTER_DIRECCION : String := "T"
def COL_MASTER_TOTAL_CREDITO : String := "U"
def COL_MASTER_IMPORTE_CUOTA : String := "V"
def COL_MASTER_TOTAL_CUOTAS : String := "W"
def COL_MASTER_CUOTAS_ABONADAS : String := "X"

def COL_LOG_FECHA : String := "A"
def COL_LOG_ARTICULO : String := "D"
def COL_LOG_CANT_CUOTAS_PAGADAS : String := "I"

/-! ## Identifier codec (sheet.py, `col_to_index`) -/

/-- One step of the loop body of `col_to_index`: the pair carries
`(index, power)`; each character contributes `(ord(ch.upper()) - ord(A) + 1) * power`. -/
def col_step (ip : Int × Int) (c : Char) : Int × Int :=
  (ip.1 + (((c.toUpper.toNat : Int) - ('A'.toNat : Int)) + 1) * ip.2, ip.2 * 26)

/-- Embedding of `col_to_index` (sheet.py lines 77-84): iterate over the
reversed upper-cased letters accumulating base-26 positional weights, then
shift to a zero-based index.  The Python function is total: it raises on no
input whatsoever. -/
def col_to_index (col_letter : String) : Int :=
  (col_letter.data.reverse.foldl col_step (0, 1)).1 - 1

/-! ## Python string primitives

Executable models of the Python string operations the source uses; all are
structural recursions over the character list so that every definition in
this file evaluates inside the kernel. -/

/-- Characters removed by Python `str.strip()` (the common whitespace set). -/
def isPyWhitespace (c : Char) : Bool :=
  c = ' ' ∨ c = '\t' ∨ c = '\n' ∨ c = '\r'

/-- Model of Python `str.strip()`. -/
def pyStrip (s : String) : String :=
  String.mk (((s.data.dropWhile isPyWhitespace).reverse.dropWhile isPyWhitespace).reverse)

/-- Model of Python `str.lower()` (ASCII case map). -/
def pyLower (s : String) : String :=
  String.mk (s.data.map Char.toLower)

/-- Model of Python `s.replace(c, "")` for a one-character pattern. -/
def removeChar (c : Char) (s : String) : String :=
  String.mk (s.data.filter (fun x => x ≠ c))

/-- Model of Python `s.replace(a, b)` for one-character pattern and replacement. -/
def replaceChar (a b : Char) (s : String) : String :=
  String.mk (s.data.map (fun x => if x = a then b else x))

/-- Model of Python `s.split(c)` for a one-character separator. -/
def splitOnChar (c : Char) : List Char → List (List Char)
  | [] => [[]]
  | x :: rest =>
      let r := splitOnChar c rest
      if x = c then [] :: r else (x :: r.headD []) :: r.tail

/-! ## Python numeric parsing (the fragment used by `_get_cell_value`) -/

/-- Decimal value of a digit list (most significant first). -/
def digitsVal (cs : List Char) : Nat :=
  cs.foldl (fun a c => a * 10 + (c.toNat - 48)) 0

/-- Parse a non-empty all-digit character list, else `none`. -/
def parseDigits (cs : List Char) : Option Nat :=
  if cs ≠ [] ∧ cs.all Char.isDigit then some (digitsVal cs) else none

/-- Model of Python `int(s)` on its decimal fragment: optional surrounding
whitespace, optional sign, then ASCII digits; anything else fails. -/
def pyParseInt (s : String) : Option Int :=
  match (pyStrip s).data with
  | '+' :: rest => (parseDigits rest).map (fun n => (n : Int))
  | '-' :: rest => (parseDigits rest).map (fun n => -(n : Int))
  | cs => (parseDigits cs).map (fun n => (n : Int))

/-- Exact scaled decimal: the value `num / 10 ^ scale`.  Models the float
values the ledger produces (all of which are finite decimals). -/
structure PyDecimal where
  num : Int
  scale : Nat
deriving DecidableEq

/-- Power of ten as an integer, by structural recursion. -/
def pow10 : Nat → Int
  | 0 => 1
  | n + 1 => 10 * pow10 n

/-- Value equality of two scaled decimals (cross multiplication). -/
def PyDecimal.valEq (a b : PyDecimal) : Prop :=
  a.num * pow10 b.scale = b.num * pow10 a.scale

instance (a b : PyDecimal) : Decidable (PyDecimal.valEq a b) := by
  unfold PyDecimal.valEq
  infer_instance

/-- Multiplication of a decimal amount by an integer count. -/
def PyDecimal.mulInt (a : PyDecimal) (k : Int) : PyDecimal :=
  ⟨a.num * k, a.scale⟩

/-- Unsigned decimal core of Python `float(s)`: digits with at most one
point and at least one digit overall. -/
def pyParseFloatCore (body : List Char) : Option PyDecimal :=
  match splitOnChar '.' body with
  | [a] =>
      if a ≠ [] ∧ a.all Char.isDigit then some ⟨(digitsVal a : Int), 0⟩ else none
  | [a, b] =>
      if (a ≠ [] ∨ b ≠ []) ∧ a.all Char.isDigit ∧ b.all Char.isDigit then
        some ⟨(digitsVal a * 10 ^ b.length + digitsVal b : Nat), b.length⟩
      else none
  | _ => none

/-- Model of Python `float(s)` on its plain decimal fragment: optional
surrounding whitespace, optional sign, then an unsigned decimal. -/
def pyParseFloat (s : String) : Option PyDecimal :=
  match (pyStrip s).data with
  | '+' :: rest => pyParseFloatCore rest
  | '-' :: rest => (pyParseFloatCore rest).map (fun d => ⟨-d.num, d.scale⟩)
  | cs => pyParseFloatCore cs

/-! ## Cell extraction (sheet.py, `_get_cell_value` inside `get_credit_data`)

The Python helper dispatches on the requested `data_type`; the three uses
(`str`, `int`, `float`) are embedded as three functions sharing the same
out-of-bounds / empty-cell / parse-failure structure. -/

/-- Cleaning applied before `int(...)`: strip currency symbol and dots, keep
the part before the first comma (`val_str.replace($,).replace(.,).split(,)[0]`). -/
def clean_int_cell (val_str : String) : String :=
  String.mk ((removeChar '.' (removeChar '$' val_str)).data.takeWhile (fun c => c ≠ ','))

/-- Cleaning applied before `float(...)`: strip currency symbol, drop dots
(thousands separators), turn the comma into a decimal point. -/
def clean_float_cell (val_str : String) : String :=
  replaceChar ',' '.' (removeChar '.' (removeChar '$' val_str))

/-- Trimmed content of the cell addressed by a column letter (the
`str(row_values[cell_idx]).strip()` of `_get_cell_value`); empty when the
fetched row is too short. -/
def raw_cell (row_values : List String) (col_letter : String) : String :=
  pyStrip (row_values.getD (col_to_index col_letter).toNat "")

/-- Embedding of `_get_cell_value(col, default, str)`. -/
def get_cell_value_str (row_values : List String) (col_letter : String)
    (default_val : String) : String :=
  if (col_to_index col_letter).toNat < row_values.length then
    let val_str := pyStrip (row_values.getD (col_to_index col_letter).toNat "")
    if val_str = "" then default_val else val_str
  else default_val

/-- Embedding of `_get_cell_value(col, default, int)`: a parse failure on a
non-empty cell is caught and yields the default. -/
def get_cell_value_int (row_values : List String) (col_letter : String)
    (default_val : Int) : Int :=
  if (col_to_index col_letter).toNat < row_values.length then
    let val_str := pyStrip (row_values.getD (col_to_index col_letter).toNat "")
    if val_str = "" then default_val
    else
      match pyParseInt (clean_int_cell val_str) with
      | some n => n
      | none => default_val
  else default_val

/-- Embedding of `_get_cell_value(col, default, float)`: a parse failure on a
non-empty cell is caught and yields the default. -/
def get_cell_value_float (row_values : List String) (col_letter : String)
    (default_val : PyDecimal) : PyDecimal :=
  if (col_to_index col_letter).toNat < row_values.length then
    let val_str := pyStrip (row_values.getD (col_to_index col_letter).toNat "")
    if val_str = "" then default_val
    else
      match pyParseFloat (clean_float_cell val_str) with
      | some q => q
      | none => default_val
  else default_val

/-! ## Credit loader (sheet.py, `get_credit_data`) -/

/-- One parsed master-table row (the dict built by `get_credit_data`). -/
structure Credit where
  row_index : Nat
  nombre : String
  apellido : String
  articulo : String
  codigo : String
  id_articulo : String
  local_comercial : String
  direccion : String
  total_credito : PyDecimal
  importe_cuota : PyDecimal
  total_cuotas : Int
  cuotas_abonadas_antes : Int
deriving DecidableEq

/-- Embedding of `get_credit_data` (sheet.py lines 155-245): `row_values` is
the full fetched row (columns from A); parse every field with its
type-specific default, then apply the four critical validations in source
order.  Raised `ValueError`s are modelled as `Except.error`. -/
def get_credit_data (row_index : Nat) (row_values : List String) :
    Except String Credit :=
  if row_values = [] then
    Except.error ("No data found in master sheet at row " ++ toString row_index)
  else
    let credit : Credit :=
      { row_index := row_index
        nombre := get_cell_value_str row_values COL_MASTER_NOMBRE "N/A"
        apellido := get_cell_value_str row_values COL_MASTER_APELLIDO "N/A"
        articulo := get_cell_value_str row_values COL_MASTER_ARTICULO "N/A"
        codigo := get_cell_value_str row_values COL_MASTER_CODIGO "N/A"
        id_articulo := get_cell_value_str row_values COL_MASTER_ID_ARTICULO "N/A"
        local_comercial := get_cell_value_str row_values COL_MASTER_COMERCIO "N/A"
        direccion := get_cell_value_str row_values COL_MASTER_DIRECCION "N/A"
        total_credito := get_cell_value_float row_values COL_MASTER_TOTAL_CREDITO ⟨0, 0⟩
        importe_cuota := get_cell_value_float row_values COL_MASTER_IMPORTE_CUOTA ⟨0, 0⟩
        total_cuotas := get_cell_value_int row_values COL_MASTER_TOTAL_CUOTAS 0
        cuotas_abonadas_antes := get_cell_value_int row_values COL_MASTER_CUOTAS_ABONADAS 0 }
    if credit.id_articulo = "" ∨ credit.id_articulo = "N/A" then
      Except.error ("ID Articulo is missing or invalid for credit at master row " ++ toString row_index)
    else if credit.codigo = "" ∨ credit.codigo = "N/A" then
      Except.error ("Codigo Articulo is missing or invalid for credit at master row " ++ toString row_index)
    else if credit.importe_cuota.num ≤ 0 then
      Except.error ("Importe Cuota is invalid (must be > 0) for credit at master row " ++ toString row_index)
    else if credit.total_cuotas ≤ 0 then
      Except.error ("Total Cuotas is invalid (must be > 0) for credit at master row " ++ toString row_index)
    else Except.ok credit

/-! ## Credit lookup (sheet.py, `find_client_credits`)

The function receives the fetched range `M2:R500` as `all_data`; relative
column indices are computed from the column constants exactly as in the
source. -/

/-- A disambiguation match returned by the lookup (row number in the sheet,
item description, item identifier, item code). -/
structure CreditMatch where
  row_index : Nat
  articulo : String
  id_articulo : String
  codigo : String
deriving DecidableEq

/-- Data-quality warnings logged when a name-matching row is skipped. -/
inductive SkipWarning where
  | missing_id_articulo (row : Nat)
  | missing_codigo (row : Nat)
deriving DecidableEq

/-- Sheet row number a warning refers to. -/
def SkipWarning.row : SkipWarning → Nat
  | .missing_id_articulo r => r
  | .missing_codigo r => r

/-- Result of the lookup: surviving matches plus the warnings logged. -/
structure FindResult where
  matched : List CreditMatch
  warnings : List SkipWarning
deriving DecidableEq

def base_col_index : Int := col_to_index COL_MASTER_NOMBRE
def idx_nombre_rel : Nat := (col_to_index COL_MASTER_NOMBRE - base_col_index).toNat
def idx_apellido_rel : Nat := (col_to_index COL_MASTER_APELLIDO - base_col_index).toNat
def idx_articulo_rel : Nat := (col_to_index COL_MASTER_ARTICULO - base_col_index).toNat
def idx_codigo_rel : Nat := (col_to_index COL_MASTER_CODIGO - base_col_index).toNat
def idx_id_articulo_rel : Nat := (col_to_index COL_MASTER_ID_ARTICULO - base_col_index).toNat

/-- The `max(...)` bound the loop compares each fetched row length against. -/
def max_rel_idx : Nat :=
  max idx_nombre_rel (max idx_apellido_rel (max idx_articulo_rel
    (max idx_codigo_rel idx_id_articulo_rel)))

/-- Loop body of `find_client_credits` (sheet.py lines 115-142): `i` is the
zero-based position within the fetched data, so the sheet row is `i + 2`.
Rows shorter than the deepest needed column are skipped silently; rows whose
trimmed, lower-cased names equal the query names are kept unless the item
identifier or item code is blank or the `N/A` sentinel, in which case a
warning is recorded and the row skipped. -/
def find_client_credits_from (nombre_buscar apellido_buscar : String) :
    Nat → Grid → FindResult
  | _, [] => ⟨[], []⟩
  | i, row_values :: rest =>
      let tail := find_client_credits_from nombre_buscar apellido_buscar (i + 1) rest
      if row_values.length ≤ max_rel_idx then tail
      else
        let nombre_sheet := pyStrip (row_values.getD idx_nombre_rel "")
        let apellido_sheet := pyStrip (row_values.getD idx_apellido_rel "")
        if pyLower nombre_sheet = pyLower nombre_buscar ∧
            pyLower apellido_sheet = pyLower apellido_buscar then
          let articulo := if idx_articulo_rel < row_values.length then
            pyStrip (row_values.getD idx_articulo_rel "") else "N/A"
          let codigo := if idx_codigo_rel < row_values.length then
            pyStrip (row_values.getD idx_codigo_rel "") else "N/A"
          let id_articulo := if idx_id_articulo_rel < row_values.length then
            pyStrip (row_values.getD idx_id_articulo_rel "") else "N/A"
          if id_articulo = "" ∨ id_articulo = "N/A" then
            ⟨tail.matched, SkipWarning.missing_id_articulo (i + 2) :: tail.warnings⟩
          else if codigo = "" ∨ codigo = "N/A" then
            ⟨tail.matched, SkipWarning.missing_codigo (i + 2) :: tail.warnings⟩
          else
            ⟨⟨i + 2, articulo, id_articulo, codigo⟩ :: tail.matched, tail.warnings⟩
        else tail

/-- Embedding of `find_client_credits`: scan the fetched master range from
its first data row (sheet row 2). -/
def find_client_credits (all_data : Grid) (nombre_buscar apellido_buscar : String) :
    FindResult :=
  find_client_credits_from nombre_buscar apellido_buscar 0 all_data

/-! ## First empty log row (sheet.py, `find_first_empty_log_row`) -/

/-- A log row is considered empty when all fetched cells are blank after
trimming (`all(not str(cell).strip() for cell in row_content)`). -/
def row_is_empty (row_content : List String) : Bool :=
  row_content.all (fun cell => pyStrip cell = "")

/-- Loop of `find_first_empty_log_row`: `i` is the zero-based position in
the fetched preview, so the sheet row is `i + 2`; when no scanned row is
empty the row after the last scanned one is returned. -/
def find_first_empty_from : Nat → Grid → Nat
  | i, [] => i + 2
  | i, row_content :: rest =>
      if row_is_empty row_content then i + 2
      else find_first_empty_from (i + 1) rest

/-- Embedding of `find_first_empty_log_row` (sheet.py lines 248-274) applied
to the fetched preview of range `A2:D1000`. -/
def find_first_empty_log_row (log_table_preview : Grid) : Nat :=
  find_first_empty_from 0 log_table_preview

/-- The range `A2:D1000` fetched by the scan: sheet rows 2 to 1000, first
four columns of each. -/
def fetch_log_preview (g : Grid) : Grid :=
  ((g.drop 1).take 999).map (fun row => row.take 4)

/-! ## Log append (sheet.py, `log_payment_and_update_credit`) -/

/-- Left-pad a numeral string with zeros to the requested width. -/
def padZeros (s : String) (width : Nat) : String :=
  if s.length < width then
    String.mk (List.replicate (width - s.length) '0') ++ s
  else s

/-- Model of the Python format `f"..{n:0{width}d}"` for an integer. -/
def pyFormatIntPad (n : Int) (width : Nat) : String :=
  if n < 0 then "-" ++ padZeros (toString n.natAbs) (width - 1)
  else padZeros (toString n.natAbs) width

/-- Model of `f"..{x:.2f}"` on a scaled decimal: round to hundredths (ties
away from zero; the difference from binary float rounding is immaterial for
the ledger values) and print with two decimals. -/
def pyFormat2f (d : PyDecimal) : String :=
  let den := (pow10 d.scale).natAbs
  let cents := (d.num.natAbs * 100 + den / 2) / den
  (if d.num < 0 then "-" else "") ++
    toString (cents / 100) ++ "." ++ padZeros (toString (cents % 100)) 2

/-- The nine cells `A`-`I` written for one payment (date, names, item, id,
merchant, address, per-installment amount with comma decimal separator,
installments paid now). -/
def build_log_entry (credit_data : Credit) (cantidad_cuotas_pagadas : Int)
    (fecha_log : String) : List String :=
  [fecha_log,
   credit_data.nombre,
   credit_data.apellido,
   credit_data.articulo,
   credit_data.id_articulo,
   credit_data.local_comercial,
   credit_data.direccion,
   replaceChar '.' ',' (pyFormat2f credit_data.importe_cuota),
   toString cantidad_cuotas_pagadas]

/-- Row `row_index` of the sheet in a one-based addressing, as
`sheet.row_values` returns it (missing row gives no cells). -/
def sheet_row_values (g : Grid) (row_index : Nat) : List String :=
  g.getD (row_index - 1) []

/-- Model of `sheet.update("A<r>:I<r>", [entry])`: grow the grid up to row
`r` if needed, then overwrite the first nine cells of that row, leaving
every cell from column J (index 9) onwards untouched. -/
def sheet_update_log_range (g : Grid) (r : Nat) (entry : List String) : Grid :=
  let padded := if g.length < r then g ++ List.replicate (r - g.length) [] else g
  padded.set (r - 1) (entry ++ (padded.getD (r - 1) []).drop 9)

/-- Embedding of `log_payment_and_update_credit` (sheet.py lines 284-326):
validate the installment count, find the first empty log row, append the
entry there.  The raised `ValueError` is an `Except.error`. -/
def log_payment_and_update_credit (g : Grid) (credit_data : Credit)
    (cantidad_cuotas_pagadas : Int) (fecha_log : String) : Except String Grid :=
  if cantidad_cuotas_pagadas ≤ 0 then
    Except.error "Invalid cantidad_cuotas_pagadas provided."
  else
    let log_row_to_write := find_first_empty_log_row (fetch_log_preview g)
    Except.ok (sheet_update_log_range g log_row_to_write
      (build_log_entry credit_data cantidad_cuotas_pagadas fecha_log))

/-! ## Payment workflow (main_logic.py, `generate_and_send_receipt`) -/

/-- The values interpolated into the rendered receipt; one `Ticket` in the
`rendered` list stands for one call of the receipt renderer. -/
structure Ticket where
  fecha : String
  importe_cuota : PyDecimal
  cuotas_pagadas_hoy : Int
  rango_cuotas_pagadas : String
  saldo_pagado_total : PyDecimal
  total_monto_pago : PyDecimal
  remito : String
deriving DecidableEq

/-- Outcome of one run of the workflow, as surfaced to the operator. -/
inductive Outcome where
  | dataError (msg : String)
  | fullyPaid
  | exceedsRemaining
  | success
  | logFailed (msg : String)
deriving DecidableEq

/-- Observable result of one workflow run: the outcome, every renderer call
made, and the sheet contents afterwards. -/
structure WorkflowResult where
  outcome : Outcome
  rendered : List Ticket
  grid : Grid
deriving DecidableEq

/-- Remito construction (main_logic.py lines 309-317): only attempted for a
usable item identifier; a non-integer identifier degrades to the error
marker instead of failing. -/
def remito_for (id_articulo : String) (log_sheet_next_row : Nat) : String :=
  if id_articulo ≠ "" ∧ id_articulo ≠ "N/A" then
    match pyParseInt id_articulo with
    | some n => pyFormatIntPad n 3 ++ "/" ++ pyFormatIntPad (log_sheet_next_row : Int) 4
    | none => "Error/Format"
  else "N/A"

/-- Embedding of `generate_and_send_receipt` (main_logic.py lines 283-436):
determine the next log row, load the credit, build the remito, run the
fully-paid and exceeds-remaining checks, then render the ticket and append
the log entry.  The renderer call happens before the log append, so a log
failure still leaves the ticket rendered. -/
def generate_and_send_receipt (g : Grid) (master_sheet_row_index : Nat)
    (cuotas_a_pagar : Int) (fecha_hora_ticket fecha_log : String) : WorkflowResult :=
  let log_sheet_next_row := find_first_empty_log_row (fetch_log_preview g)
  match get_credit_data master_sheet_row_index (sheet_row_values g master_sheet_row_index) with
  | Except.error e => ⟨Outcome.dataError e, [], g⟩
  | Except.ok credit =>
      let remito_number_str := remito_for credit.id_articulo log_sheet_next_row
      if credit.total_cuotas ≤ credit.cuotas_abonadas_antes then
        ⟨Outcome.fullyPaid, [], g⟩
      else
        let cuotas_restantes := credit.total_cuotas - credit.cuotas_abonadas_antes
        if cuotas_restantes < cuotas_a_pagar then
          ⟨Outcome.exceedsRemaining, [], g⟩
        else
          let current_installment_start_num := credit.cuotas_abonadas_antes + 1
          let current_installment_end_num := credit.cuotas_abonadas_antes + cuotas_a_pagar
          let rango_cuotas_pagadas_str :=
            if cuotas_a_pagar = 1 then
              toString current_installment_start_num ++ " of " ++ toString credit.total_cuotas
            else
              toString current_installment_start_num ++ " to " ++
                toString current_installment_end_num ++ " of " ++ toString credit.total_cuotas
          let saldo_pagado_total_actualizado :=
            credit.importe_cuota.mulInt (credit.cuotas_abonadas_antes + cuotas_a_pagar)
          let total_monto_pago_actual := credit.importe_cuota.mulInt cuotas_a_pagar
          let ticket : Ticket :=
            ⟨fecha_hora_ticket, credit.importe_cuota, cuotas_a_pagar,
             rango_cuotas_pagadas_str, saldo_pagado_total_actualizado,
             total_monto_pago_actual, remito_number_str⟩
          match log_payment_and_update_credit g credit cuotas_a_pagar fecha_log with
          | Except.ok g2 => ⟨Outcome.success, [ticket], g2⟩
          | Except.error e => ⟨Outcome.logFailed e, [ticket], g⟩

/-- Cell at zero-based row and column of the grid, the empty string when
absent. -/
def cellAt (g : Grid) (i j : Nat) : String :=
  (g.getD i []).getD j ""

/-! ## Spec-side definitions

`index_to_col` is the inverse encoding the spec's round-trip property refers
to; it is not part of the repository, so it is modelled from the spec.
`findCreditsSpec` is the declarative description of the lookup used to state
the refinement for the lookup claim. -/

/-- Digits of the bijective base-26 encoding of `n` (fuel-bounded; the fuel
always suffices because `n` shrinks by a factor of at least 26 per step). -/
def index_to_col_aux : Nat → Nat → List Char → List Char
  | 0, _, acc => acc
  | _ + 1, 0, acc => acc
  | fuel + 1, n, acc =>
      index_to_col_aux fuel ((n - 1) / 26)
        (Char.ofNat ('A'.toNat + (n - 1) % 26) :: acc)

/-- Modelled from the spec: the base-26 encoding inverse of `columnToIndex`
(the repository has no such function), sending a zero-based index back to
column letters: 0 to A, 25 to Z, 26 to AA. -/
def index_to_col (idx : Nat) : String :=
  String.mk (index_to_col_aux (idx + 2) (idx + 1) [])

/-- The 26 column letters. -/
def column_letters : List Char := "ABCDEFGHIJKLMNOPQRSTUVWXYZ".data

/-- Every column letter string from A through ZZ, in sheet order. -/
def allCols : List String :=
  column_letters.map (fun c => String.mk [c]) ++
    column_letters.flatMap (fun c1 => column_letters.map (fun c2 => String.mk [c1, c2]))

/-- Modelled from the spec (row filter of `findCredits`, with the sentinel
and trimming behaviour of the code): the trimmed stored names equal the
query names up to ASCII case, and the trimmed item code and item identifier
are non-empty and differ from the `N/A` sentinel (a cell beyond the row's
length counts as empty). -/
def spec_row_matches (nombre_buscar apellido_buscar : String) (row : List String) : Prop :=
  pyLower (pyStrip (row.getD 0 "")) = pyLower nombre_buscar ∧
  pyLower (pyStrip (row.getD 1 "")) = pyLower apellido_buscar ∧
  pyStrip (row.getD 4 "") ≠ "" ∧ pyStrip (row.getD 4 "") ≠ "N/A" ∧
  pyStrip (row.getD 5 "") ≠ "" ∧ pyStrip (row.getD 5 "") ≠ "N/A"

instance (n a : String) (row : List String) : Decidable (spec_row_matches n a row) := by
  unfold spec_row_matches
  infer_instance

/-- Modelled from the spec: the surviving rows in table order, projected to
(row number, trimmed description, trimmed identifier, trimmed code). -/
def findCreditsSpec_from (nombre_buscar apellido_buscar : String) :
    Nat → Grid → List CreditMatch
  | _, [] => []
  | i, row :: rest =>
      if spec_row_matches nombre_buscar apellido_buscar row then
        ⟨i + 2, pyStrip (row.getD 3 ""), pyStrip (row.getD 5 ""), pyStrip (row.getD 4 "")⟩ ::
          findCreditsSpec_from nombre_buscar apellido_buscar (i + 1) rest
      else findCreditsSpec_from nombre_buscar apellido_buscar (i + 1) rest

/-- Modelled from the spec: declarative description of `findCredits`. -/
def findCreditsSpec (all_data : Grid) (nombre_buscar apellido_buscar : String) :
    List CreditMatch :=
  findCreditsSpec_from nombre_buscar apellido_buscar 0 all_data

/-! ## Concrete data used by the witnesses -/

/-- Witness row for C1: critical fields valid, while the total-credit cell
holds the unparseable text xyz and the installments-paid cell the
unparseable text abc. -/
def C1_row : List String :=
  ["", "", "", "", "", "", "", "", "", "", "", "",
   "Ana", "Diaz", "", "TV", "C1", "12", "Shop", "Road",
   "xyz", "1500", "12", "abc"]

/-- Witness grid for the workflow claims: row 1 is a header, row 2 holds a
credit with 12 installments of 1500, 3 already paid, and log columns A-D
already filled so the first empty log row is row 3. -/
def wfGrid : Grid :=
  [["header"],
   ["01/01/2025", "Bob", "Roe", "Chair", "", "", "", "", "",
    "", "", "",
    "Ana", "Diaz", "", "TV", "C1", "12", "Shop", "Road",
    "18000", "1500", "12", "3"]]

/-- The credit the loader produces from row 2 of `wfGrid`. -/
def wfCredit : Credit :=
  { row_index := 2, nombre := "Ana", apellido := "Diaz", articulo := "TV",
    codigo := "C1", id_articulo := "12", local_comercial := "Shop",
    direccion := "Road", total_credito := ⟨18000, 0⟩, importe_cuota := ⟨1500, 0⟩,
    total_cuotas := 12, cuotas_abonadas_antes := 3 }

/-- Grid for the C3 witness: the credit in row 2 has all 12 installments
paid. -/
def wfGridPaid : Grid :=
  [["header"],
   ["01/01/2025", "Bob", "Roe", "Chair", "", "", "", "", "",
    "", "", "",
    "Ana", "Diaz", "", "TV", "C1", "12", "Shop", "Road",
    "18000", "1500", "12", "12"]]

/-- The credit the loader produces from row 2 of `wfGridPaid`. -/
def wfCreditPaid : Credit :=
  { row_index := 2, nombre := "Ana", apellido := "Diaz", articulo := "TV",
    codigo := "C1", id_articulo := "12", local_comercial := "Shop",
    direccion := "Road", total_credito := ⟨18000, 0⟩, importe_cuota := ⟨1500, 0⟩,
    total_cuotas := 12, cuotas_abonadas_antes := 12 }


/-! ## Helper lemmas for the identifier codec -/

/-- Folding the codec step from an arbitrary accumulator is an affine shift
of folding it from `(0, 1)`. -/
theorem col_foldl_shift (t : List Char) :
    ∀ i p : Int, t.foldl col_step (i, p) =
      (i + p * (t.foldl col_step (0, 1)).1, p * (t.foldl col_step (0, 1)).2) := by
  induction t with
  | nil =>
      intro i p
      simp
  | cons c t ih =>
      intro i p
      simp only [List.foldl_cons, col_step]
      rw [ih, ih (0 + ((c.toUpper.toNat : Int) - ('A'.toNat : Int) + 1) * 1) (1 * 26)]
      refine Prod.ext ?_ ?_ <;> simp <;> ring

/-- Appending a character extends the decoded index by the base-26
recurrence on the character's code, whether or not it is a letter. -/
theorem col_to_index_push (s : String) (c : Char) :
    col_to_index (s.push c) =
      26 * (col_to_index s + 1) + (((c.toUpper.toNat : Int) - ('A'.toNat : Int)) + 1) - 1 := by
  obtain ⟨l⟩ := s
  show (((l ++ [c]).reverse.foldl col_step (0, 1)).1 - 1) = _
  rw [List.reverse_append]
  simp only [List.reverse_singleton, List.singleton_append, List.foldl_cons, col_step]
  rw [col_foldl_shift]
  unfold col_to_index
  ring

/-! ## Claim C8 -/

set_option maxRecDepth 100000 in
set_option maxHeartbeats 2000000 in
/-- C8: for every column letter from A through ZZ, `col_to_index` decodes
base 26 with A=1..Z=26 positional weighting shifted to a zero-based index
(A gives 0, Z gives 25, AA gives 26, ZZ gives 701), and composing with the
base-26 encoding inverse reproduces the original letters. -/
theorem C8_col_to_index_roundtrip :
    (∀ s ∈ allCols, index_to_col (col_to_index s).toNat = s) ∧
    col_to_index "A" = 0 ∧ col_to_index "Z" = 25 ∧
    col_to_index "AA" = 26 ∧ col_to_index "ZZ" = 701 := by
  refine ⟨by decide, by decide, by decide, by decide, by decide⟩

set_option maxRecDepth 100000 in
/-- Witness for C8 at the column letters AZ. -/
theorem C8_col_to_index_roundtrip_witness :
    "AZ" ∈ allCols ∧ index_to_col (col_to_index "AZ").toNat = "AZ" :=
  ⟨by decide, C8_col_to_index_roundtrip.1 "AZ" (by decide)⟩

/-! ## Claim C9 -/

/-- C9 counterexample: `col_to_index` does not fail on empty or
non-alphabetic input; it returns a numeric index (`-1` for the empty
string, `-16` for the digit string 1). -/
theorem C9_counterexample :
    col_to_index "" = -1 ∧ col_to_index "1" = -16 := by
  exact ⟨by decide, by decide⟩

/-- C9 (amended): `col_to_index` never signals an error: the empty string
yields -1, and appending any character, alphabetic or not, extends the
index by the base-26 recurrence on the character's code. -/
theorem C9_col_to_index_total :
    col_to_index "" = -1 ∧
    ∀ (s : String) (c : Char),
      col_to_index (s.push c) =
        26 * (col_to_index s + 1) + (((c.toUpper.toNat : Int) - ('A'.toNat : Int)) + 1) - 1 := by
  exact ⟨by decide, fun s c => col_to_index_push s c⟩

/-! ## Helper lemmas for the cell getters -/

/-- A float cell whose cleaned text does not parse yields the default. -/
theorem get_cell_value_float_of_parse_none (row_values : List String)
    (col_letter : String) (default_val : PyDecimal)
    (h : pyParseFloat (clean_float_cell (raw_cell row_values col_letter)) = none) :
    get_cell_value_float row_values col_letter default_val = default_val := by
  unfold raw_cell at h
  unfold get_cell_value_float
  split
  · dsimp only
    split
    · rfl
    · rw [h]
  · rfl

/-- An int cell whose cleaned text does not parse yields the default. -/
theorem get_cell_value_int_of_parse_none (row_values : List String)
    (col_letter : String) (default_val : Int)
    (h : pyParseInt (clean_int_cell (raw_cell row_values col_letter)) = none) :
    get_cell_value_int row_values col_letter default_val = default_val := by
  unfold raw_cell at h
  unfold get_cell_value_int
  split
  · dsimp only
    split
    · rfl
    · rw [h]
  · rfl

/-! ## Claim C1 -/

/-- C1: applied to a non-empty master row, the loader raises exactly when,
after field parsing, the item identifier is blank or the sentinel, the item
code is blank or the sentinel, the per-installment amount is nonpositive, or
the installment count is nonpositive; and a non-empty non-critical cell that
fails to parse does not abort the load but yields the default value (0 for
the integer field, 0.0 for the amount field; text fields cannot fail). -/
theorem C1_loader_validation (row_index : Nat) (row_values : List String)
    (hne : row_values ≠ []) :
    ((get_credit_data row_index row_values).isOk = false ↔
      (get_cell_value_str row_values COL_MASTER_ID_ARTICULO "N/A" = "" ∨
       get_cell_value_str row_values COL_MASTER_ID_ARTICULO "N/A" = "N/A" ∨
       get_cell_value_str row_values COL_MASTER_CODIGO "N/A" = "" ∨
       get_cell_value_str row_values COL_MASTER_CODIGO "N/A" = "N/A" ∨
       (get_cell_value_float row_values COL_MASTER_IMPORTE_CUOTA ⟨0, 0⟩).num ≤ 0 ∨
       get_cell_value_int row_values COL_MASTER_TOTAL_CUOTAS 0 ≤ 0)) ∧
    (∀ c, get_credit_data row_index row_values = Except.ok c →
      ((raw_cell row_values COL_MASTER_TOTAL_CREDITO ≠ "" ∧
        pyParseFloat (clean_float_cell (raw_cell row_values COL_MASTER_TOTAL_CREDITO)) = none) →
        c.total_credito = ⟨0, 0⟩) ∧
      ((raw_cell row_values COL_MASTER_CUOTAS_ABONADAS ≠ "" ∧
        pyParseInt (clean_int_cell (raw_cell row_values COL_MASTER_CUOTAS_ABONADAS)) = none) →
        c.cuotas_abonadas_antes = 0)) := by
  constructor
  · simp only [get_credit_data, if_neg hne]
    split_ifs with h1 h2 h3 h4 <;> simp only [Except.isOk] <;> tauto
  · intro c hc
    simp only [get_credit_data, if_neg hne] at hc
    split_ifs at hc
    all_goals
      first
        | exact Except.noConfusion hc
        | (injection hc with h
           subst h
           exact ⟨fun hp => get_cell_value_float_of_parse_none row_values COL_MASTER_TOTAL_CREDITO ⟨0, 0⟩ hp.2,
                  fun hp => get_cell_value_int_of_parse_none row_values COL_MASTER_CUOTAS_ABONADAS 0 hp.2⟩)

/-- Witness for C1 at the concrete row `C1_row`. -/
theorem C1_loader_validation_witness :
    C1_row ≠ [] ∧
    (((get_credit_data 2 C1_row).isOk = false ↔
      (get_cell_value_str C1_row COL_MASTER_ID_ARTICULO "N/A" = "" ∨
       get_cell_value_str C1_row COL_MASTER_ID_ARTICULO "N/A" = "N/A" ∨
       get_cell_value_str C1_row COL_MASTER_CODIGO "N/A" = "" ∨
       get_cell_value_str C1_row COL_MASTER_CODIGO "N/A" = "N/A" ∨
       (get_cell_value_float C1_row COL_MASTER_IMPORTE_CUOTA ⟨0, 0⟩).num ≤ 0 ∨
       get_cell_value_int C1_row COL_MASTER_TOTAL_CUOTAS 0 ≤ 0)) ∧
    (∀ c, get_credit_data 2 C1_row = Except.ok c →
      ((raw_cell C1_row COL_MASTER_TOTAL_CREDITO ≠ "" ∧
        pyParseFloat (clean_float_cell (raw_cell C1_row COL_MASTER_TOTAL_CREDITO)) = none) →
        c.total_credito = ⟨0, 0⟩) ∧
      ((raw_cell C1_row COL_MASTER_CUOTAS_ABONADAS ≠ "" ∧
        pyParseInt (clean_int_cell (raw_cell C1_row COL_MASTER_CUOTAS_ABONADAS)) = none) →
        c.cuotas_abonadas_antes = 0))) :=
  ⟨by decide, C1_loader_validation 2 C1_row (by decide)⟩

/-! ## Helper lemma: a successfully loaded credit satisfies the validations -/

/-- Inversion of the loader: a credit it returns has a usable identifier and
code, a positive per-installment amount and a positive installment count. -/
theorem get_credit_data_ok_valid (r : Nat) (rv : List String) (c : Credit)
    (h : get_credit_data r rv = Except.ok c) :
    c.id_articulo ≠ "" ∧ c.id_articulo ≠ "N/A" ∧ c.codigo ≠ "" ∧ c.codigo ≠ "N/A" ∧
    0 < c.importe_cuota.num ∧ 0 < c.total_cuotas := by
  unfold get_credit_data at h
  split at h
  · exact Except.noConfusion h
  · dsimp only at h
    split_ifs at h with h1 h2 h3 h4
    all_goals
      first
        | exact Except.noConfusion h
        | (injection h with h5
           subst h5
           push_neg at h1 h2
           exact ⟨h1.1, h1.2, h2.1, h2.2, lt_of_not_le h3, lt_of_not_le h4⟩)

/-! ## Claim C2 -/

/-- C2: when the loaded record still has installments outstanding and the
request exceeds the remainder, the workflow rejects with the
exceeds-remaining outcome, renders nothing and leaves the sheet unchanged. -/
theorem C2_exceeds_remaining (g : Grid) (r : Nat) (pay : Int) (fh fl : String)
    (c : Credit)
    (hok : get_credit_data r (sheet_row_values g r) = Except.ok c)
    (hlt : c.cuotas_abonadas_antes < c.total_cuotas)
    (hgt : c.total_cuotas - c.cuotas_abonadas_antes < pay) :
    generate_and_send_receipt g r pay fh fl = ⟨Outcome.exceedsRemaining, [], g⟩ := by
  simp only [generate_and_send_receipt, hok]
  rw [if_neg (not_le.mpr hlt), if_pos hgt]

/-- Witness for C2: requesting 100 installments with 9 remaining. -/
theorem C2_exceeds_remaining_witness :
    (get_credit_data 2 (sheet_row_values wfGrid 2) = Except.ok wfCredit ∧
     wfCredit.cuotas_abonadas_antes < wfCredit.total_cuotas ∧
     wfCredit.total_cuotas - wfCredit.cuotas_abonadas_antes < 100) ∧
    generate_and_send_receipt wfGrid 2 100 "f" "d" = ⟨Outcome.exceedsRemaining, [], wfGrid⟩ :=
  ⟨⟨by decide, by decide, by decide⟩,
   C2_exceeds_remaining wfGrid 2 100 "f" "d" wfCredit (by decide) (by decide) (by decide)⟩

/-! ## Claim C3 -/

/-- C3 counterexample: the non-empty master row with single cell x parses to
installments-paid 0 equal to total 0, yet the loader raises (total must be
positive and the identifier is missing) instead of not raising as claimed. -/
theorem C3_counterexample :
    (["x"] : List String) ≠ [] ∧
    get_cell_value_int ["x"] COL_MASTER_TOTAL_CUOTAS 0 ≤
      get_cell_value_int ["x"] COL_MASTER_CUOTAS_ABONADAS 0 ∧
    (get_credit_data 2 ["x"]).isOk = false := by
  exact ⟨by decide, by decide, by decide⟩

/-- C3 (amended): for every master row that the loader accepts (its critical
validations pass) and whose installments-paid count equals or exceeds the
total, the workflow returns the fully-paid outcome, renders nothing and
leaves the sheet unchanged. -/
theorem C3_fully_paid (g : Grid) (r : Nat) (pay : Int) (fh fl : String)
    (c : Credit)
    (hok : get_credit_data r (sheet_row_values g r) = Except.ok c)
    (hpaid : c.total_cuotas ≤ c.cuotas_abonadas_antes) :
    generate_and_send_receipt g r pay fh fl = ⟨Outcome.fullyPaid, [], g⟩ := by
  simp only [generate_and_send_receipt, hok]
  rw [if_pos hpaid]

/-- Witness for C3 on a fully paid credit. -/
theorem C3_fully_paid_witness :
    (get_credit_data 2 (sheet_row_values wfGridPaid 2) = Except.ok wfCreditPaid ∧
     wfCreditPaid.total_cuotas ≤ wfCreditPaid.cuotas_abonadas_antes) ∧
    generate_and_send_receipt wfGridPaid 2 1 "f" "d" = ⟨Outcome.fullyPaid, [], wfGridPaid⟩ :=
  ⟨⟨by decide, by decide⟩,
   C3_fully_paid wfGridPaid 2 1 "f" "d" wfCreditPaid (by decide) (by decide)⟩

/-! ## Claim C4 -/

/-- C4: an accepted payment (positive and within the remainder) succeeds,
rendering exactly one ticket whose paid-to-date amount is the
per-installment amount times paid-plus-now, whose amount due now is the
per-installment amount times the installments paid now, and whose range
label is start-to-end-of-total, collapsing when one installment is paid. -/
theorem C4_payment_math (g : Grid) (r : Nat) (pay : Int) (fh fl : String)
    (c : Credit)
    (hok : get_credit_data r (sheet_row_values g r) = Except.ok c)
    (hlt : c.cuotas_abonadas_antes < c.total_cuotas)
    (hpos : 0 < pay)
    (hle : pay ≤ c.total_cuotas - c.cuotas_abonadas_antes) :
    ∃ t g2, generate_and_send_receipt g r pay fh fl = ⟨Outcome.success, [t], g2⟩ ∧
      t.saldo_pagado_total = c.importe_cuota.mulInt (c.cuotas_abonadas_antes + pay) ∧
      t.total_monto_pago = c.importe_cuota.mulInt pay ∧
      t.rango_cuotas_pagadas =
        (if pay = 1 then
          toString (c.cuotas_abonadas_antes + 1) ++ " of " ++ toString c.total_cuotas
        else
          toString (c.cuotas_abonadas_antes + 1) ++ " to " ++
            toString (c.cuotas_abonadas_antes + pay) ++ " of " ++
            toString c.total_cuotas) := by
  simp only [generate_and_send_receipt, hok, log_payment_and_update_credit]
  rw [if_neg (not_le.mpr hlt), if_neg (not_lt.mpr hle), if_neg (not_le.mpr hpos)]
  exact ⟨_, _, rfl, rfl, rfl, rfl⟩

/-- Witness for C4 at the spec's example: 12 installments, 3 paid,
per-installment 1500, paying 2 gives 7500 paid to date, 3000 due now and
the label 4 to 5 of 12. -/
theorem C4_payment_math_witness :
    (get_credit_data 2 (sheet_row_values wfGrid 2) = Except.ok wfCredit ∧
     wfCredit.cuotas_abonadas_antes < wfCredit.total_cuotas ∧
     (0 : Int) < 2 ∧ (2 : Int) ≤ wfCredit.total_cuotas - wfCredit.cuotas_abonadas_antes) ∧
    (∃ t g2, generate_and_send_receipt wfGrid 2 2 "f" "d" = ⟨Outcome.success, [t], g2⟩ ∧
      t.saldo_pagado_total = wfCredit.importe_cuota.mulInt (wfCredit.cuotas_abonadas_antes + 2) ∧
      t.total_monto_pago = wfCredit.importe_cuota.mulInt 2 ∧
      t.rango_cuotas_pagadas =
        (if (2 : Int) = 1 then
          toString (wfCredit.cuotas_abonadas_antes + 1) ++ " of " ++ toString wfCredit.total_cuotas
        else
          toString (wfCredit.cuotas_abonadas_antes + 1) ++ " to " ++
            toString (wfCredit.cuotas_abonadas_antes + 2) ++ " of " ++
            toString wfCredit.total_cuotas)) ∧
    wfCredit.importe_cuota.mulInt (wfCredit.cuotas_abonadas_antes + 2) = ⟨7500, 0⟩ ∧
    wfCredit.importe_cuota.mulInt 2 = ⟨3000, 0⟩ ∧
    (generate_and_send_receipt wfGrid 2 2 "f" "d").rendered.map
      (fun t => t.rango_cuotas_pagadas) = ["4 to 5 of 12"] :=
  ⟨⟨by decide, by decide, by decide, by decide⟩,
   C4_payment_math wfGrid 2 2 "f" "d" wfCredit (by decide) (by decide) (by decide) (by decide),
   by decide, by decide, by decide⟩

/-! ## Helper lemmas for the first-empty-row scan -/

/-- The scan never returns a row before its starting position. -/
theorem find_first_empty_from_lower (l : Grid) :
    ∀ i, i + 2 ≤ find_first_empty_from i l := by
  induction l with
  | nil => intro i; exact le_refl _
  | cons row rest ih =>
      intro i
      unfold find_first_empty_from
      split
      · exact le_refl _
      · exact le_trans (by omega) (ih (i + 1))

/-- The scan returns at most one past the scanned window. -/
theorem find_first_empty_from_upper (l : Grid) :
    ∀ i, find_first_empty_from i l ≤ i + l.length + 2 := by
  induction l with
  | nil => intro i; simp [find_first_empty_from]
  | cons row rest ih =>
      intro i
      unfold find_first_empty_from
      split
      · simp
      · calc find_first_empty_from (i + 1) rest ≤ (i + 1) + rest.length + 2 := ih (i + 1)
          _ ≤ i + (row :: rest).length + 2 := by simp; omega

/-- No row strictly before the returned one is empty. -/
theorem find_first_empty_from_before (l : Grid) :
    ∀ i j, i + j + 2 < find_first_empty_from i l →
      row_is_empty (l.getD j []) = false := by
  induction l with
  | nil =>
      intro i j h
      unfold find_first_empty_from at h
      omega
  | cons row rest ih =>
      intro i j h
      unfold find_first_empty_from at h
      split at h
      · omega
      · match j with
        | 0 =>
            rename_i hrow
            simpa using Bool.of_not_eq_true hrow
        | k + 1 =>
            rw [List.getD_cons_succ]
            exact ih (i + 1) k (by omega)

/-- When the scan stops inside the window, the row it stops at is empty. -/
theorem find_first_empty_from_hit (l : Grid) :
    ∀ i, find_first_empty_from i l < i + l.length + 2 →
      row_is_empty (l.getD (find_first_empty_from i l - (i + 2)) []) = true := by
  induction l with
  | nil =>
      intro i h
      simp [find_first_empty_from] at h
  | cons row rest ih =>
      intro i h
      unfold find_first_empty_from at h ⊢
      split
      · rename_i hrow
        simpa using hrow
      · rename_i hrow
        rw [if_neg hrow] at h
        have hlow := find_first_empty_from_lower rest (i + 1)
        have hstep : find_first_empty_from (i + 1) rest - (i + 2) =
            (find_first_empty_from (i + 1) rest - (i + 3)) + 1 := by omega
        rw [hstep, List.getD_cons_succ]
        have hwin : find_first_empty_from (i + 1) rest < (i + 1) + rest.length + 2 := by
          simp only [List.length_cons] at h
          omega
        simpa using ih (i + 1) hwin

/-! ## Claim C7 -/

/-- C7: the next log row is the 1-based sheet row of the first scanned
log-table row whose tracked cells are all blank, or one past the last
scanned row when none is; the same value is both the row the log entry is
written to and the input of the remito number, formatted as 3-digit item
identifier, slash, 4-digit log row; a non-integer identifier degrades the
remito to the error marker while the transaction still succeeds. -/
theorem C7_log_row_and_remito (g : Grid) (r : Nat) (pay : Int) (fh fl : String)
    (c : Credit)
    (hok : get_credit_data r (sheet_row_values g r) = Except.ok c)
    (hlt : c.cuotas_abonadas_antes < c.total_cuotas)
    (hpos : 0 < pay)
    (hle : pay ≤ c.total_cuotas - c.cuotas_abonadas_antes) :
    2 ≤ find_first_empty_log_row (fetch_log_preview g) ∧
    find_first_empty_log_row (fetch_log_preview g) ≤ (fetch_log_preview g).length + 2 ∧
    (∀ j, j + 2 < find_first_empty_log_row (fetch_log_preview g) →
      row_is_empty ((fetch_log_preview g).getD j []) = false) ∧
    (find_first_empty_log_row (fetch_log_preview g) < (fetch_log_preview g).length + 2 →
      row_is_empty ((fetch_log_preview g).getD
        (find_first_empty_log_row (fetch_log_preview g) - 2) []) = true) ∧
    (∃ t, generate_and_send_receipt g r pay fh fl =
        ⟨Outcome.success, [t],
         sheet_update_log_range g (find_first_empty_log_row (fetch_log_preview g))
           (build_log_entry c pay fl)⟩ ∧
      t.remito =
        (match pyParseInt c.id_articulo with
         | some n => pyFormatIntPad n 3 ++ "/" ++
             pyFormatIntPad ((find_first_empty_log_row (fetch_log_preview g) : Nat) : Int) 4
         | none => "Error/Format")) := by
  obtain ⟨hid1, hid2, _, _, _, _⟩ := get_credit_data_ok_valid r (sheet_row_values g r) c hok
  unfold find_first_empty_log_row
  refine ⟨by simpa using find_first_empty_from_lower (fetch_log_preview g) 0, ?_, ?_, ?_, ?_⟩
  · simpa using find_first_empty_from_upper (fetch_log_preview g) 0
  · intro j hj
    exact find_first_empty_from_before (fetch_log_preview g) 0 j (by omega)
  · intro hin
    simpa using find_first_empty_from_hit (fetch_log_preview g) 0 (by omega)
  · simp only [generate_and_send_receipt, hok, log_payment_and_update_credit,
      find_first_empty_log_row]
    rw [if_neg (not_le.mpr hlt), if_neg (not_lt.mpr hle), if_neg (not_le.mpr hpos)]
    refine Exists.intro _ (And.intro rfl ?_)
    dsimp only
    unfold remito_for
    rw [if_pos ⟨hid1, hid2⟩]

/-- Witness for C7: on `wfGrid` the scan finds log row 3 and the remito is
built from identifier 12 and that same row. -/
theorem C7_log_row_and_remito_witness :
    (get_credit_data 2 (sheet_row_values wfGrid 2) = Except.ok wfCredit ∧
     wfCredit.cuotas_abonadas_antes < wfCredit.total_cuotas ∧
     (0 : Int) < 2 ∧ (2 : Int) ≤ wfCredit.total_cuotas - wfCredit.cuotas_abonadas_antes) ∧
    (2 ≤ find_first_empty_log_row (fetch_log_preview wfGrid) ∧
     find_first_empty_log_row (fetch_log_preview wfGrid) ≤ (fetch_log_preview wfGrid).length + 2 ∧
     (∀ j, j + 2 < find_first_empty_log_row (fetch_log_preview wfGrid) →
       row_is_empty ((fetch_log_preview wfGrid).getD j []) = false) ∧
     (find_first_empty_log_row (fetch_log_preview wfGrid) < (fetch_log_preview wfGrid).length + 2 →
       row_is_empty ((fetch_log_preview wfGrid).getD
         (find_first_empty_log_row (fetch_log_preview wfGrid) - 2) []) = true) ∧
     (∃ t, generate_and_send_receipt wfGrid 2 2 "f" "d" =
         ⟨Outcome.success, [t],
          sheet_update_log_range wfGrid (find_first_empty_log_row (fetch_log_preview wfGrid))
            (build_log_entry wfCredit 2 "d")⟩ ∧
       t.remito =
         (match pyParseInt wfCredit.id_articulo with
          | some n => pyFormatIntPad n 3 ++ "/" ++
              pyFormatIntPad ((find_first_empty_log_row (fetch_log_preview wfGrid) : Nat) : Int) 4
          | none => "Error/Format"))) ∧
    find_first_empty_log_row (fetch_log_preview wfGrid) = 3 ∧
    (generate_and_send_receipt wfGrid 2 2 "f" "d").rendered.map
      (fun t => t.remito) = ["012/0003"] :=
  ⟨⟨by decide, by decide, by decide, by decide⟩,
   C7_log_row_and_remito wfGrid 2 2 "f" "d" wfCredit (by decide) (by decide) (by decide) (by decide),
   by decide, by decide⟩

/-! ## Helper lemmas for the sheet write (claim C5) -/

/-- Padding the grid with empty rows changes no row read. -/
theorem getD_pad_rows (g : Grid) (r0 i : Nat) :
    (if g.length < r0 then g ++ List.replicate (r0 - g.length) ([] : List String) else g).getD
      i [] = g.getD i [] := by
  split
  · rw [List.getD_eq_getElem?_getD, List.getD_eq_getElem?_getD, List.getElem?_append]
    split
    · rfl
    · rename_i hge
      rw [List.getElem?_replicate]
      have hnone : g[i]? = none := by
        rw [List.getElem?_eq_none_iff]
        omega
      rw [hnone]
      split <;> rfl
  · rfl

/-- Setting one row leaves every other row as it was. -/
theorem getD_set_ne (l : Grid) (k i : Nat) (row : List String) (h : i ≠ k) :
    (l.set k row).getD i [] = l.getD i [] := by
  rw [List.getD_eq_getElem?_getD, List.getD_eq_getElem?_getD,
    List.getElem?_set_ne (fun he => h he.symm)]

/-- Reading the row just set gives the new row when the index is in range,
the old (absent) row otherwise. -/
theorem getD_set_target (l : Grid) (k : Nat) (row : List String) :
    (l.set k row).getD k [] = if k < l.length then row else l.getD k [] := by
  by_cases hlt : k < l.length
  · rw [if_pos hlt, List.getD_eq_getElem?_getD, List.getElem?_set, if_pos rfl, if_pos hlt]
    rfl
  · rw [if_neg hlt, List.getD_eq_getElem?_getD, List.getElem?_set, if_pos rfl, if_neg hlt,
      List.getD_eq_default _ _ (le_of_not_lt hlt)]
    rfl

/-- Cells from column J onwards of the written row keep their old value. -/
theorem getD_entry_append_drop (entry tailrow : List String)
    (hlen : entry.length = 9) (j : Nat) (hj : 9 ≤ j) :
    (entry ++ tailrow.drop 9).getD j "" = tailrow.getD j "" := by
  rw [List.getD_eq_getElem?_getD, List.getElem?_append_right (by omega), hlen,
    List.getElem?_drop, List.getD_eq_getElem?_getD]
  have h9 : 9 + (j - 9) = j := by omega
  rw [h9]

/-- The log write touches only columns A-I of its target row: every cell in
a column at index 9 or beyond, and every cell of any other row, is
unchanged. -/
theorem cellAt_sheet_update_log_range (g : Grid) (r0 : Nat) (entry : List String)
    (hlen : entry.length = 9) (i j : Nat) (hij : 9 ≤ j ∨ i ≠ r0 - 1) :
    cellAt (sheet_update_log_range g r0 entry) i j = cellAt g i j := by
  unfold sheet_update_log_range cellAt
  dsimp only
  by_cases hi : i = r0 - 1
  · subst hi
    have hj : 9 ≤ j := hij.resolve_right (fun h => h rfl)
    rw [getD_set_target]
    by_cases hin : r0 - 1 <
        (if g.length < r0 then g ++ List.replicate (r0 - g.length) ([] : List String)
         else g).length
    · rw [if_pos hin, getD_entry_append_drop entry _ hlen j hj, getD_pad_rows]
    · rw [if_neg hin, getD_pad_rows]
  · rw [getD_set_ne _ _ _ _ hi, getD_pad_rows]

/-- The workflow either leaves the grid alone or writes the single log row. -/
theorem workflow_grid_cases (g : Grid) (r : Nat) (pay : Int) (fh fl : String) :
    (generate_and_send_receipt g r pay fh fl).grid = g ∨
    ∃ c, get_credit_data r (sheet_row_values g r) = Except.ok c ∧
      (generate_and_send_receipt g r pay fh fl).grid =
        sheet_update_log_range g (find_first_empty_log_row (fetch_log_preview g))
          (build_log_entry c pay fl) := by
  rcases hcd : get_credit_data r (sheet_row_values g r) with e | c
  · left
    simp [generate_and_send_receipt, hcd]
  · simp only [generate_and_send_receipt, hcd, log_payment_and_update_credit]
    by_cases h1 : c.total_cuotas ≤ c.cuotas_abonadas_antes
    · left
      rw [if_pos h1]
    · rw [if_neg h1]
      by_cases h2 : c.total_cuotas - c.cuotas_abonadas_antes < pay
      · left
        rw [if_pos h2]
      · rw [if_neg h2]
        by_cases h3 : pay ≤ 0
        · left
          rw [if_pos h3]
        · rw [if_neg h3]
          right
          exact ⟨c, rfl, rfl⟩

/-! ## Claim C5 -/

/-- C5: no run of the workflow writes to the master region: every cell in a
column at index 9 or beyond (so in particular the installments-paid column
X) is unchanged, and at most one row, the appended log row, changes at all. -/
theorem C5_master_read_only (g : Grid) (r : Nat) (pay : Int) (fh fl : String) :
    (∀ i j, 9 ≤ j →
      cellAt (generate_and_send_receipt g r pay fh fl).grid i j = cellAt g i j) ∧
    (∃ w, ∀ i j, i ≠ w →
      cellAt (generate_and_send_receipt g r pay fh fl).grid i j = cellAt g i j) := by
  rcases workflow_grid_cases g r pay fh fl with hg | ⟨c, _, hg⟩
  · rw [hg]
    exact ⟨fun i j _ => rfl, 0, fun i j _ => rfl⟩
  · rw [hg]
    constructor
    · intro i j hj
      exact cellAt_sheet_update_log_range g (find_first_empty_log_row (fetch_log_preview g))
        (build_log_entry c pay fl) (by rfl) i j (Or.inl hj)
    · exact ⟨find_first_empty_log_row (fetch_log_preview g) - 1,
        fun i j hi => cellAt_sheet_update_log_range g
          (find_first_empty_log_row (fetch_log_preview g))
          (build_log_entry c pay fl) (by rfl) i j (Or.inr hi)⟩

/-- Witness for C5: after a successful payment on `wfGrid`, the
installments-paid cell (row 2, column X = index 23) is unchanged. -/
theorem C5_master_read_only_witness :
    (9 : Nat) ≤ 23 ∧
    cellAt (generate_and_send_receipt wfGrid 2 2 "f" "d").grid 1 23 = cellAt wfGrid 1 23 :=
  ⟨by decide, (C5_master_read_only wfGrid 2 2 "f" "d").1 1 23 (by decide)⟩

/-! ## Helper lemmas for the credit lookup -/

/-- The relative column indices the lookup computes from the constants. -/
theorem idx_rel_values :
    idx_nombre_rel = 0 ∧ idx_apellido_rel = 1 ∧ idx_articulo_rel = 3 ∧
    idx_codigo_rel = 4 ∧ idx_id_articulo_rel = 5 ∧ max_rel_idx = 5 := by
  decide

/-- The lookup loop computes exactly the declarative filter-and-project
description, position by position. -/
theorem find_from_matched_eq_spec (n a : String) :
    ∀ (l : Grid) (i : Nat),
      (find_client_credits_from n a i l).matched = findCreditsSpec_from n a i l := by
  intro l
  induction l with
  | nil =>
      intro i
      rfl
  | cons row rest ih =>
      intro i
      unfold find_client_credits_from findCreditsSpec_from
      dsimp only
      simp only [idx_rel_values.1, idx_rel_values.2.1, idx_rel_values.2.2.1,
        idx_rel_values.2.2.2.1, idx_rel_values.2.2.2.2.1, idx_rel_values.2.2.2.2.2]
      by_cases hlen : row.length ≤ 5
      · rw [if_pos hlen]
        have hid : pyStrip (row.getD 5 "") = "" := by
          rw [List.getD_eq_default _ _ hlen]
          rfl
        have hm : ¬ spec_row_matches n a row := fun hsm => hsm.2.2.2.2.1 hid
        rw [if_neg hm]
        exact ih (i + 1)
      · rw [if_neg hlen]
        have h3 : 3 < row.length := by omega
        have h4 : 4 < row.length := by omega
        have h5 : 5 < row.length := by omega
        rw [if_pos h3, if_pos h4, if_pos h5]
        by_cases hnm : pyLower (pyStrip (row.getD 0 "")) = pyLower n ∧
            pyLower (pyStrip (row.getD 1 "")) = pyLower a
        · rw [if_pos hnm]
          by_cases hid : pyStrip (row.getD 5 "") = "" ∨ pyStrip (row.getD 5 "") = "N/A"
          · rw [if_pos hid]
            have hm : ¬ spec_row_matches n a row := by
              intro hsm
              rcases hid with h | h
              · exact hsm.2.2.2.2.1 h
              · exact hsm.2.2.2.2.2 h
            rw [if_neg hm]
            exact ih (i + 1)
          · rw [if_neg hid]
            by_cases hcod : pyStrip (row.getD 4 "") = "" ∨ pyStrip (row.getD 4 "") = "N/A"
            · rw [if_pos hcod]
              have hm : ¬ spec_row_matches n a row := by
                intro hsm
                rcases hcod with h | h
                · exact hsm.2.2.1 h
                · exact hsm.2.2.2.1 h
              rw [if_neg hm]
              exact ih (i + 1)
            · rw [if_neg hcod]
              push_neg at hid hcod
              have hm : spec_row_matches n a row :=
                ⟨hnm.1, hnm.2, hcod.1, hcod.2, hid.1, hid.2⟩
              rw [if_pos hm]
              dsimp only
              rw [ih (i + 1)]
        · rw [if_neg hnm]
          have hm : ¬ spec_row_matches n a row := fun hsm => hnm ⟨hsm.1, hsm.2.1⟩
          rw [if_neg hm]
          exact ih (i + 1)

/-! ## Claim C6 -/

/-- C6 (amended): the lookup returns exactly the rows whose trimmed stored
first/last names equal the query names as given up to ASCII case and whose
trimmed item code and item identifier are non-empty and differ from the
sentinel, projected to (row number, description, identifier, code), in
table order; a matching row whose code or identifier is missing, blank or
the sentinel is skipped, never an error, and the empty list is the normal
no-match result. -/
theorem C6_find_credits_spec (all_data : Grid) (nombre_buscar apellido_buscar : String) :
    (find_client_credits all_data nombre_buscar apellido_buscar).matched =
      findCreditsSpec all_data nombre_buscar apellido_buscar :=
  find_from_matched_eq_spec nombre_buscar apellido_buscar all_data 0

/-- C6 counterexample: a row whose stored names equal the query exactly and
whose code and identifier cells are both non-empty is still not returned,
because the code cell holds the sentinel text. -/
theorem C6_counterexample :
    pyLower (pyStrip ((["ann", "lee", "", "tv", "N/A", "7"] : List String).getD 0 "")) =
      pyLower (pyStrip "ann") ∧
    pyLower (pyStrip ((["ann", "lee", "", "tv", "N/A", "7"] : List String).getD 1 "")) =
      pyLower (pyStrip "lee") ∧
    (["ann", "lee", "", "tv", "N/A", "7"] : List String).getD 4 "" ≠ "" ∧
    (["ann", "lee", "", "tv", "N/A", "7"] : List String).getD 5 "" ≠ "" ∧
    (find_client_credits [["ann", "lee", "", "tv", "N/A", "7"]] "ann" "lee").matched = [] := by
  decide

/-! ## Claim C10 -/

/-- Everything the lookup emits, match or warning, stems from a scanned row
that has more cells than the deepest required column (index 5). -/
theorem find_from_bounds (n a : String) :
    ∀ (l : Grid) (i0 : Nat),
      (∀ m ∈ (find_client_credits_from n a i0 l).matched,
        ∃ j, j < l.length ∧ m.row_index = i0 + j + 2 ∧
          5 < (l.getD j []).length) ∧
      (∀ w ∈ (find_client_credits_from n a i0 l).warnings,
        ∃ j, j < l.length ∧ SkipWarning.row w = i0 + j + 2 ∧
          5 < (l.getD j []).length) := by
  intro l
  induction l with
  | nil =>
      intro i0
      constructor <;> intro x hx <;> simp [find_client_credits_from] at hx
  | cons row rest ih =>
      intro i0
      have shift1 : ∀ m ∈ (find_client_credits_from n a (i0 + 1) rest).matched,
          ∃ j, j < (row :: rest).length ∧ m.row_index = i0 + j + 2 ∧
            5 < ((row :: rest).getD j []).length := by
        intro m hm
        obtain ⟨j, hj, hr, hl⟩ := (ih (i0 + 1)).1 m hm
        refine ⟨j + 1, ?_, by omega, ?_⟩
        · simp only [List.length_cons]
          omega
        · rw [List.getD_cons_succ]
          exact hl
      have shift2 : ∀ w ∈ (find_client_credits_from n a (i0 + 1) rest).warnings,
          ∃ j, j < (row :: rest).length ∧ SkipWarning.row w = i0 + j + 2 ∧
            5 < ((row :: rest).getD j []).length := by
        intro w hw
        obtain ⟨j, hj, hr, hl⟩ := (ih (i0 + 1)).2 w hw
        refine ⟨j + 1, ?_, by omega, ?_⟩
        · simp only [List.length_cons]
          omega
        · rw [List.getD_cons_succ]
          exact hl
      unfold find_client_credits_from
      dsimp only
      simp only [idx_rel_values.1, idx_rel_values.2.1, idx_rel_values.2.2.1,
        idx_rel_values.2.2.2.1, idx_rel_values.2.2.2.2.1, idx_rel_values.2.2.2.2.2]
      by_cases hlen : row.length ≤ 5
      · rw [if_pos hlen]
        exact ⟨shift1, shift2⟩
      · rw [if_neg hlen]
        have head_ok : 5 < ((row :: rest).getD 0 []).length := by
          rw [List.getD_cons_zero]
          omega
        have h3 : 3 < row.length := by omega
        have h4 : 4 < row.length := by omega
        have h5 : 5 < row.length := by omega
        rw [if_pos h3, if_pos h4, if_pos h5]
        by_cases hnm : pyLower (pyStrip (row.getD 0 "")) = pyLower n ∧
            pyLower (pyStrip (row.getD 1 "")) = pyLower a
        · rw [if_pos hnm]
          by_cases hid : pyStrip (row.getD 5 "") = "" ∨ pyStrip (row.getD 5 "") = "N/A"
          · rw [if_pos hid]
            refine ⟨shift1, ?_⟩
            intro w hw
            rcases List.mem_cons.mp hw with rfl | hw2
            · exact ⟨0, by simp, by simp [SkipWarning.row], head_ok⟩
            · exact shift2 w hw2
          · rw [if_neg hid]
            by_cases hcod : pyStrip (row.getD 4 "") = "" ∨ pyStrip (row.getD 4 "") = "N/A"
            · rw [if_pos hcod]
              refine ⟨shift1, ?_⟩
              intro w hw
              rcases List.mem_cons.mp hw with rfl | hw2
              · exact ⟨0, by simp, by simp [SkipWarning.row], head_ok⟩
              · exact shift2 w hw2
            · rw [if_neg hcod]
              refine ⟨?_, shift2⟩
              intro m hm
              rcases List.mem_cons.mp hm with rfl | hm2
              · exact ⟨0, by simp, by simp, head_ok⟩
              · exact shift1 m hm2
        · rw [if_neg hnm]
          exact ⟨shift1, shift2⟩

/-- C10: a fetched row with fewer cells than needed to reach the
item-identifier column is skipped before any name comparison: whatever its
contents and whatever the query, it is never returned and never warned
about, and the lookup still returns a list. -/
theorem C10_short_rows_skipped (table : Grid) (n a : String) (i : Nat)
    (hshort : (table.getD i []).length ≤ 5) :
    (∀ m ∈ (find_client_credits table n a).matched, m.row_index ≠ i + 2) ∧
    (∀ w ∈ (find_client_credits table n a).warnings, SkipWarning.row w ≠ i + 2) := by
  constructor
  · intro m hm heq
    obtain ⟨j, hj, hr, hl⟩ := (find_from_bounds n a table 0).1 m hm
    have hji : j = i := by omega
    subst hji
    omega
  · intro w hw heq
    obtain ⟨j, hj, hr, hl⟩ := (find_from_bounds n a table 0).2 w hw
    have hji : j = i := by omega
    subst hji
    omega

/-- Witness for C10: a five-cell row whose names would match is neither
returned nor warned about. -/
theorem C10_short_rows_skipped_witness :
    ((([["ann", "lee", "x", "tv", "C1"]] : Grid).getD 0 []).length ≤ 5) ∧
    ((∀ m ∈ (find_client_credits [["ann", "lee", "x", "tv", "C1"]] "ann" "lee").matched,
        m.row_index ≠ 0 + 2) ∧
     (∀ w ∈ (find_client_credits [["ann", "lee", "x", "tv", "C1"]] "ann" "lee").warnings,
        SkipWarning.row w ≠ 0 + 2)) :=
  ⟨by decide,
   C10_short_rows_skipped [["ann", "lee", "x", "tv", "C1"]] "ann" "lee" 0 (by decide)⟩
